import Mathlib

/-!
Verification development for the portfolio-backend service
(`src/portfolio-backend`).  The Python modules `config.py`, `main.py`,
`services/cutler_service.py`, `services/rag_service.py`,
`services/celery_service.py`, `services/mlflow_service.py` and
`services/monitoring_service.py` are shallowly embedded here.

Modelling conventions:
  - External backend calls (model inference, the retrieval backend, the
    MLflow tracking server) are parameters of type `Except String α`: the
    `.error` case is the backend raising an exception with that message,
    `.ok` its successful return.
  - Python `raise` / `except` is embedded via `Except`: a function whose
    Python counterpart can raise returns `Except String α` (or carries an
    `Option String` error component when the post-failure object state
    matters).
  - Calls into the monitoring service (Prometheus counters / histograms)
    and MLflow metric logging are modelled as events appended to a trace
    (`List MEvent`); the prometheus-client calls themselves do not fail.
  - Wall-clock durations (`time.time()` differences) are abstract `Nat`
    parameters (`elapsed`): the embedding does not model real time, only
    which duration value each metric call receives.
-/

/-- One observable instrumentation event: a call into
`monitoring_service` or a metric-logging call into `mlflow_service`,
with the arguments the Python code passes. -/
inductive MEvent where
  /-- `monitoring_service.record_file_upload(file_type, status, file_size)` -/
  | record_file_upload (fileType status : String) (fileSize : Nat)
  /-- `monitoring_service.record_prediction(model_name, status, duration, image_size, num_instances)` -/
  | record_prediction (modelName status : String) (duration imageSize numInstances : Nat)
  /-- `mlflow_service.log_prediction_metrics(prediction_time, image_size, num_instances)` -/
  | log_prediction_metrics (duration imageSize numInstances : Nat)
  /-- `mlflow_service.start_run(...)` succeeded -/
  | mlflow_run_started
  /-- `mlflow_service.end_run()` -/
  | mlflow_run_ended
  /-- `process_image_async.delay(contents, filename)`: a Celery task was submitted -/
  | task_submit (taskId : String)
deriving DecidableEq, Repr

namespace MLFlowService

/-- Embeds `MLFlowService.log_model_metrics` (mlflow_service.py lines 35-41):
the `mlflow.log_metrics` call sits in a `try` whose `except` only logs —
a failing tracking backend is swallowed and the method returns normally. -/
def log_model_metrics (backend : Except String Unit) : Except String Unit :=
  match backend with
  | .ok _ => .ok ()
  | .error _ => .ok ()

/-- Embeds `MLFlowService.log_model_params` (lines 43-49): `mlflow.log_params`
failures are caught and only logged; the method returns normally. -/
def log_model_params (backend : Except String Unit) : Except String Unit :=
  match backend with
  | .ok _ => .ok ()
  | .error _ => .ok ()

/-- Embeds `MLFlowService.end_run` (lines 98-104): `mlflow.end_run` failures
are caught and only logged; the method returns normally. -/
def end_run (backend : Except String Unit) : Except String Unit :=
  match backend with
  | .ok _ => .ok ()
  | .error _ => .ok ()

/-- Embeds `MLFlowService.log_prediction_metrics` (lines 106-115): builds a
metrics dict and delegates to `log_model_metrics`, which swallows failures. -/
def log_prediction_metrics (backend : Except String Unit) : Except String Unit :=
  log_model_metrics backend

/-- Embeds `MLFlowService.setup_mlflow` (lines 17-33): the `except` clause
logs the error and then executes a bare `raise` — the failure propagates
to the caller. -/
def setup_mlflow (backend : Except String Unit) : Except String Unit :=
  backend

/-- Embeds `MLFlowService.start_run` (lines 89-96): the `except` clause logs
the error and then executes a bare `raise` — the failure propagates to the
caller. -/
def start_run (backend : Except String Unit) : Except String Unit :=
  backend

end MLFlowService

/-- The successful outcome of running inference plus visualization inside
`CutlerService.process_image`: the base64-encoded annotated image and the
number of detected instances. -/
structure InferOk where
  image : String
  numInstances : Nat
deriving DecidableEq, Repr

/-- The dict returned by `CutlerService.process_image`: on success the keys
`success`, `image`, `num_instances`, `processing_time`; on failure the keys
`success`, `error`, `processing_time`.  Absent keys are `none`. -/
structure ProcResult where
  success : Bool
  image : Option String := none
  error : Option String := none
  numInstances : Option Nat := none
  processingTime : Nat := 0
deriving DecidableEq, Repr

namespace CutlerService

/-- Embeds `CutlerService.process_image` (cutler_service.py lines 80-159).
`inference` is the combined outcome of decode + `demo.run_on_image` +
re-encoding; `imageSize` is `len(image_bytes)`; `elapsed` the measured
wall-clock duration.  The whole body is a `try` whose `except Exception`
records an error prediction metric and RETURNS a `success: False` dict —
the function never re-raises, so its embedded result is always `.ok`.
On success it logs prediction metrics to MLflow (a call that swallows its
own failures, see `MLFlowService.log_prediction_metrics`) and records a
success prediction metric. -/
def process_image (inference : Except String InferOk) (imageSize elapsed : Nat)
    (log : List MEvent) : Except String ProcResult × List MEvent :=
  match inference with
  | .ok r =>
      (.ok { success := true, image := some r.image,
             numInstances := some r.numInstances, processingTime := elapsed },
       log ++ [.log_prediction_metrics elapsed imageSize r.numInstances,
               .record_prediction "cutler" "success" elapsed imageSize r.numInstances])
  | .error e =>
      (.ok { success := false, error := some e, processingTime := elapsed },
       log ++ [.record_prediction "cutler" "error" elapsed imageSize 0])

end CutlerService

/-- The mutable attributes of the `RagService` singleton (rag_service.py
lines 20-27) that the embedded operations read or write: `self.rag`
(the `LightRAG` handle, abstracted to an opaque `Nat` identifier, `none`
while unset), `self.initialized`, `self.total_queries`,
`self.successful_queries`.  `working_dir`, `resume_path` and
`initialization_time` play no role in the verified claims and are
omitted. -/
structure RagState where
  rag : Option Nat := none
  initialized : Bool := false
  totalQueries : Nat := 0
  successfulQueries : Nat := 0
deriving DecidableEq, Repr

/-- The combined outcome of the external setup work inside
`RagService.initialize`: either the `LightRAG` construction /
`initialize_storages` / `initialize_pipeline_status` stage raises
(`mk_rag_fails`, before `self.rag` is assigned a working handle we keep
the attribute as it was), or that stage yields handle `h` and the
resume-file read / `rag.insert` stage raises (`insert_fails`), or
everything succeeds with handle `h` (`ok`). -/
inductive SetupOutcome where
  | mk_rag_fails (e : String)
  | insert_fails (h : Nat) (e : String)
  | ok (h : Nat)
deriving DecidableEq, Repr

/-- The dict returned by `RagService.query`: on success the keys `success`,
`response`, `processing_time`, `query`, `metadata`; on failure `success`,
`error`, `processing_time`, `query`.  `metadata` carries
`(total_queries, successful_queries)`; the derived float `success_rate`
is not modelled. -/
structure QueryResult where
  success : Bool
  response : Option String := none
  error : Option String := none
  processingTime : Nat := 0
  query : String := ""
  metadata : Option (Nat × Nat) := none
deriving DecidableEq, Repr

namespace RagService

/-- Embeds `RagService.initialize` (rag_service.py lines 29-100); renamed
`init_service` here because this file cannot use the source's method name.
If `self.initialized` is already true the method returns immediately
without running setup.  Otherwise the setup work runs inside a `try`:
a failure in the LightRAG-construction stage propagates out wrapped as
`RuntimeError("RAG service initialization failed: ...")` with the object
unchanged; a failure reading/inserting the resume file is first wrapped
as `RuntimeError("Failed to read resume file: ...")` (line 85) and then
again by the outer handler (line 94), with `self.rag` already assigned.
Crucially, `self.initialized = True` (line 96) runs only after the whole
`try` body succeeded, so any failure leaves `initialized` false.
The first component is the raised error message (`none` = returned
normally); the second is the object state afterwards. -/
def init_service (setup : SetupOutcome) (s : RagState) :
    Option String × RagState :=
  if s.initialized then (none, s)
  else
    match setup with
    | .mk_rag_fails e =>
        (some ("RAG service initialization failed: " ++ e), s)
    | .insert_fails h e =>
        (some ("RAG service initialization failed: " ++
                 ("Failed to read resume file: " ++ e)),
         { s with rag := some h })
    | .ok h =>
        (none, { s with rag := some h, initialized := true })

/-- Embeds `RagService.query` (rag_service.py lines 102-191).  If the
service is not initialized it raises
`RuntimeError("RAG service not initialized. Call initialize() first.")`
BEFORE touching `total_queries` (the increment is at line 116, after the
guard at line 112).  Otherwise `total_queries` is incremented, the
retrieval backend (`self.rag.query` via `run_in_executor`) runs inside a
`try`: on success `successful_queries` is incremented, prediction metrics
are logged, a success prediction metric is recorded, and a
`success: True` dict is returned; on exception an error prediction
metric is recorded and a `success: False` dict with the error string is
returned — the exception is not re-raised.  `backend` is the retrieval
call's outcome, `elapsed` the measured duration. -/
def query (question : String) (backend : Except String String) (elapsed : Nat)
    (s : RagState) (log : List MEvent) :
    Except String QueryResult × RagState × List MEvent :=
  if s.initialized then
    let s1 : RagState := { s with totalQueries := s.totalQueries + 1 }
    match backend with
    | .ok resp =>
        let s2 : RagState := { s1 with successfulQueries := s1.successfulQueries + 1 }
        (.ok { success := true, response := some resp, processingTime := elapsed,
               query := question,
               metadata := some (s2.totalQueries, s2.successfulQueries) },
         s2,
         log ++ [.log_prediction_metrics elapsed 0 resp.length,
                 .record_prediction "rag" "success" elapsed 0 1])
    | .error e =>
        (.ok { success := false, error := some e, processingTime := elapsed,
               query := question },
         s1,
         log ++ [.record_prediction "rag" "error" elapsed 0 0])
  else
    (.error "RAG service not initialized. Call initialize() first.", s, log)

end RagService

namespace Celery

/-- Embeds the Celery task `process_image_async`
(celery_service.py lines 31-110).  The body is a `try` that starts an
MLflow run via `mlflow_service.start_run` — which RE-RAISES a tracking
failure (`MLFlowService.start_run`) — then runs
`cutler_service.process_image` (which never raises, returning a result
dict), records success or error monitoring metrics according to
`result["success"]`, ends the MLflow run, and returns the result dict.
The outer `except Exception` records an error prediction metric with
duration 0 and then RE-RAISES (`raise`, line 110), so an exception
escaping the body (in this embedding: a failing `start_run`) surfaces to
Celery unchanged.  `startRunBackend` is the tracking server's outcome
for `start_run`; `inference` and `imageSize`/`elapsed` feed the inner
`process_image` call. -/
def process_image_async (startRunBackend : Except String Unit)
    (inference : Except String InferOk) (imageSize elapsed : Nat)
    (log : List MEvent) : Except String ProcResult × List MEvent :=
  match MLFlowService.start_run startRunBackend with
  | .error e =>
      (.error e, log ++ [.record_prediction "cutler" "error" 0 imageSize 0])
  | .ok _ =>
      let log0 := log ++ [.mlflow_run_started]
      match CutlerService.process_image inference imageSize elapsed log0 with
      | (.ok res, log1) =>
          if res.success then
            (.ok res,
             log1 ++ [.log_prediction_metrics elapsed imageSize (res.numInstances.getD 0),
                      .record_prediction "cutler" "success" elapsed imageSize
                        (res.numInstances.getD 0),
                      .mlflow_run_ended])
          else
            (.ok res,
             log1 ++ [.record_prediction "cutler" "error" elapsed imageSize 0,
                      .mlflow_run_ended])
      | (.error e, log1) =>
          (.error e, log1 ++ [.record_prediction "cutler" "error" 0 imageSize 0])

end Celery

/-- Value of a digit string, most significant digit first. -/
def digitsToNat (cs : List Char) : Nat :=
  cs.foldl (fun n c => 10 * n + (c.toNat - ('0').toNat)) 0

/-- Surrounding-whitespace stripping on a character list, as Python's `int`
performs on its string argument before parsing. -/
def stripWs (cs : List Char) : List Char :=
  ((cs.dropWhile Char.isWhitespace).reverse.dropWhile Char.isWhitespace).reverse

/-- Embeds Python's `int(s)` applied to a string: surrounding whitespace is
stripped, an optional single sign is allowed, and the remainder must be a
non-empty run of decimal digits (the underscore-separator extension of
`int` is irrelevant to every string this development parses and is
omitted); any other character makes `int` raise `ValueError`, embedded as
`none`. -/
def pyInt (s : String) : Option Int :=
  match stripWs s.toList with
  | [] => none
  | c :: rest =>
      let (neg, digits) :=
        if c = '-' then (true, rest)
        else if c = '+' then (false, rest)
        else (false, c :: rest)
      if digits ≠ [] ∧ digits.all Char.isDigit then
        some (if neg then -(digitsToNat digits : Int) else (digitsToNat digits : Int))
      else none

/-- Embeds `settings.allowed_file_types` (config.py line 37). -/
def allowed_file_types : List String := ["image/jpeg", "image/png", "image/jpg"]

/-- The fields of `Settings` (config.py) whose construction involves `int()`
parsing of environment values, plus the upload whitelist.  Fields that are
plain strings are irrelevant to the claims and omitted. -/
structure Settings where
  port : Int
  workers : Int
  maxFileSize : Int
  allowedFileTypes : List String
deriving DecidableEq, Repr

/-- Embeds the construction of the `Settings` instance (config.py lines
5-46) over an environment `env` (the embedding of `os.getenv`: `none`
when the variable is unset).  Each `int(os.getenv(NAME, default))`
evaluates `pyInt` on the environment value or on the written default
string; if any such parse fails, `int` raises `ValueError` and the
module-level `settings = Settings()` fails, embedded as `none`.  The
default string for `max_file_size` is literally `"10 * 1024 * 1024"`
(line 36). -/
def mkSettings (env : String → Option String) : Option Settings :=
  match pyInt ((env "PORT").getD "8000"),
        pyInt ((env "WORKERS").getD "4"),
        pyInt ((env "MAX_FILE_SIZE").getD "10 * 1024 * 1024") with
  | some p, some w, some m =>
      some { port := p, workers := w, maxFileSize := m,
             allowedFileTypes := allowed_file_types }
  | _, _, _ => none

/-- A Python exception as seen by the endpoint handlers: either a FastAPI
`HTTPException(status_code, detail)` or any other exception carrying its
message. -/
inductive Exc where
  | http (code : Nat) (detail : String)
  | other (msg : String)
deriving DecidableEq, Repr

/-- Python `str(e)` on an exception: Starlette renders an `HTTPException`
as `"{status_code}: {detail}"` (its dunder-str method), and a plain
exception as its message. -/
def Exc.str : Exc → String
  | .http c d => toString c ++ ": " ++ d
  | .other m => m

/-- A response produced by an endpoint handler: a JSON body for the
synchronous image endpoint, the immediate acknowledgement of the
asynchronous one, or an error response raised as `HTTPException`. -/
inductive EndpointResponse where
  | okJson (r : ProcResult)
  | okAsync (taskId status message : String)
  | httpError (code : Nat) (detail : String)
deriving DecidableEq, Repr

namespace Main

/-- The `try` body of the `/process-image` handler (main.py lines 190-215):
reject a content type outside `settings.allowed_file_types` with
`HTTPException(400, "Invalid file type")`; read the upload; reject
`len(contents) > settings.max_file_size` with
`HTTPException(413, "File too large")`; only then record the
`file_upload` metric, run `cutler_service.process_image`, and raise
`HTTPException(500, result["error"])` when the result dict has
`success: False`.  The trace starts empty: events appearing in it are
exactly the instrumentation calls this request performed. -/
def process_image_body (maxFileSize : Nat) (contentType : String) (size : Nat)
    (inference : Except String InferOk) (elapsed : Nat) :
    Except Exc ProcResult × List MEvent :=
  if contentType ∈ allowed_file_types then
    if size > maxFileSize then
      (.error (.http 413 "File too large"), [])
    else
      let log : List MEvent := [.record_file_upload contentType "success" size]
      match CutlerService.process_image inference size elapsed log with
      | (.ok res, log1) =>
          if res.success then (.ok res, log1)
          else (.error (.http 500 (res.error.getD "")), log1)
      | (.error e, log1) => (.error (.other e), log1)
  else
    (.error (.http 400 "Invalid file type"), [])

/-- Embeds the `/process-image` handler (main.py lines 187-221): the body
runs under `except HTTPException: raise` followed by
`except Exception: raise HTTPException(500, str(e))`, so an
`HTTPException` keeps its status code and any other exception becomes a
500. -/
def process_image (maxFileSize : Nat) (contentType : String) (size : Nat)
    (inference : Except String InferOk) (elapsed : Nat) :
    EndpointResponse × List MEvent :=
  match process_image_body maxFileSize contentType size inference elapsed with
  | (.ok res, log) => (.okJson res, log)
  | (.error (.http c d), log) => (.httpError c d, log)
  | (.error (.other m), log) => (.httpError 500 m, log)

/-- The `try` body of the `/process-image/async` handler (main.py lines
227-253): the same content-type and size validation raising
`HTTPException(400, ...)` / `HTTPException(413, ...)` as the synchronous
endpoint, then the `file_upload` metric, then
`process_image_async.delay(contents, filename)` returning the new task
id, acknowledged immediately as status `"processing"`. -/
def process_image_async_body (maxFileSize : Nat) (contentType : String)
    (size : Nat) (newTaskId : String) :
    Except Exc (String × String) × List MEvent :=
  if contentType ∈ allowed_file_types then
    if size > maxFileSize then
      (.error (.http 413 "File too large"), [])
    else
      (.ok (newTaskId, "processing"),
       [.record_file_upload contentType "success" size, .task_submit newTaskId])
  else
    (.error (.http 400 "Invalid file type"), [])

/-- Embeds the `/process-image/async` handler (main.py lines 224-257).
Unlike the synchronous handler, its only handler clause is
`except Exception as e: raise HTTPException(500, str(e))` — there is no
preceding `except HTTPException: raise` — and FastAPI's `HTTPException`
subclasses `Exception`, so the validation errors the body itself raised
are caught here and re-wrapped as a 500 whose detail is `str(e)`. -/
def process_image_async_endpoint (maxFileSize : Nat) (contentType : String)
    (size : Nat) (newTaskId : String) : EndpointResponse × List MEvent :=
  match process_image_async_body maxFileSize contentType size newTaskId with
  | (.ok (tid, st), log) =>
      (.okAsync tid st "Image processing started asynchronously", log)
  | (.error e, log) => (.httpError 500 e.str, log)

/-- The dict returned by `RagService.health_check` as consumed by the
`/health` handler: a `status` string plus optional error detail.
(`rag_service.health_check` catches every exception internally and always
returns such a dict — it never raises into the caller.) -/
structure RagHealth where
  status : String
  error : Option String := none
deriving DecidableEq, Repr

/-- The `services` sub-object of a healthy `/health` response
(main.py lines 97-101). -/
structure HealthServices where
  mlflow : String
  cutler : String
  rag : String
deriving DecidableEq, Repr

/-- The `/health` response body: the aggregate `status`, the per-service
breakdown (present only on the no-exception path), and the `error` key
(present only on the exception path).  Timestamps and the echoed
`model_info` / `rag_health` payloads are omitted. -/
structure HealthResponse where
  status : String
  services : Option HealthServices := none
  error : Option String := none
deriving DecidableEq, Repr

/-- Embeds the `/health` handler (main.py lines 79-111).  All three
sub-checks run inside ONE `try`: `mlflow_service.setup_mlflow()` (which
re-raises tracking failures), `cutler_service.get_model_info()` (which
catches internally and returns a dict, with an `"error"` key on failure —
embedded as `modelInfo : Except String Unit`), and
`rag_service.health_check()` (which catches internally and returns a
status dict).  If nothing raises, the aggregate `status` is the literal
`"healthy"` regardless of what the sub-checks reported, with the
per-service strings filled in; if the `try` body raises (here: a failing
MLflow setup, the only raiser), the single `except` returns
`status: "unhealthy"` with only the error — no `services` breakdown. -/
def health_check (mlflowBackend : Except String Unit)
    (modelInfo : Except String Unit) (ragHealth : RagHealth) : HealthResponse :=
  match MLFlowService.setup_mlflow mlflowBackend with
  | .error e => { status := "unhealthy", error := some e }
  | .ok _ =>
      { status := "healthy",
        services := some
          { mlflow := "available",
            cutler := match modelInfo with
                      | .ok _ => "available"
                      | .error _ => "error",
            rag := ragHealth.status } }

/-- The state Celery's result backend reports for a task id, following
Celery's `AsyncResult` semantics: `pending` / `started` are not ready;
`succeeded` / `failed` are ready, carrying the return value or the
failure info. -/
inductive CeleryTaskState where
  | pending
  | started
  | succeeded (r : ProcResult)
  | failed (e : String)
deriving DecidableEq, Repr

/-- The `/task/{task_id}` response body (main.py lines 266-283). -/
structure TaskStatusResponse where
  taskId : String
  status : String
  result : Option ProcResult := none
  error : Option String := none
deriving DecidableEq, Repr

/-- The ledger of tasks known to the Celery result backend: `none` for an
identifier no submission ever produced. -/
def Ledger := String → Option CeleryTaskState

/-- Embeds `celery_app.AsyncResult(task_id)` as used by the status
endpoint.  Celery's documented behaviour: constructing an `AsyncResult`
for an id the backend has no record of does not fail — the result simply
reports state `PENDING` (`ready()` is false), indistinguishable from a
genuinely queued task. -/
def asyncResultState (ledger : Ledger) (taskId : String) : CeleryTaskState :=
  (ledger taskId).getD CeleryTaskState.pending

/-- Embeds the `/task/{task_id}` handler (main.py lines 260-287): on
`task.ready() and task.successful()` return `status: "completed"` with
the result; on ready-but-failed return `status: "failed"` with the error;
otherwise return `status: "processing"`.  There is no branch recognising
an unknown id — whatever `AsyncResult` reports is classified by the same
three-way test. -/
def get_task_status (ledger : Ledger) (taskId : String) : TaskStatusResponse :=
  match asyncResultState ledger taskId with
  | .succeeded r => { taskId := taskId, status := "completed", result := some r }
  | .failed e => { taskId := taskId, status := "failed", error := some e }
  | _ => { taskId := taskId, status := "processing" }

end Main

/-! Theorems about the embedded program. -/

/-- C1: the claim is false for the synchronous inference wrapper.  At the
concrete failing computation `.error "boom"`, `CutlerService.process_image`
does not re-surface the failure to the caller: it returns normally with an
error-shaped dict (`success: False` plus an `error` key) — a different
result shape — instead of raising `"boom"`. -/
theorem process_image_swallows_failure_cex :
    (CutlerService.process_image (.error "boom") 5 7 []).1 =
      .ok { success := false, error := some "boom", processingTime := 7 } ∧
    (CutlerService.process_image (.error "boom") 5 7 []).1 ≠
      .error "boom" := by
  refine ⟨rfl, ?_⟩
  simp [CutlerService.process_image]

/-- C1 (amended): on each instrumented path a failure of the underlying
computation is recorded together with the duration-so-far, but only the
async worker task re-surfaces it: `CutlerService.process_image` and
`RagService.query` catch the failure and return an error-shaped
`success: False` dict to the caller instead of re-raising, while the
Celery task `process_image_async` records the error metric and re-raises
the original failure unchanged. -/
theorem instrumented_paths_on_failure (e q : String) (sz t : Nat)
    (log : List MEvent) (s : RagState) (inf : InferOk)
    (hs : s.initialized = true) :
    (CutlerService.process_image (.error e) sz t log).1 =
      .ok { success := false, error := some e, processingTime := t } ∧
    (CutlerService.process_image (.error e) sz t log).2 =
      log ++ [.record_prediction "cutler" "error" t sz 0] ∧
    (RagService.query q (.error e) t s log).1 =
      .ok { success := false, error := some e, processingTime := t, query := q } ∧
    (RagService.query q (.error e) t s log).2.2 =
      log ++ [.record_prediction "rag" "error" t 0 0] ∧
    (Celery.process_image_async (.error e) (.ok inf) sz t log).1 = .error e ∧
    (Celery.process_image_async (.error e) (.ok inf) sz t log).2 =
      log ++ [.record_prediction "cutler" "error" 0 sz 0] := by
  refine ⟨rfl, rfl, ?_, ?_, rfl, rfl⟩ <;>
    simp [RagService.query, hs]

/-- C1 witness: the amended statement instantiated at a concrete failing
input on an initialized RAG state. -/
theorem instrumented_paths_on_failure_witness :
    ({ initialized := true : RagState }).initialized = true ∧
    (RagService.query "q" (.error "boom") 3
        { initialized := true } []).1 =
      .ok { success := false, error := some "boom", processingTime := 3,
            query := "q" } :=
  ⟨rfl,
   (instrumented_paths_on_failure "boom" "q" 5 3 []
      { initialized := true } { image := "i", numInstances := 1 } rfl).2.2.1⟩

/-- C2: the claim is false.  Polling an identifier no submission ever
produced (`ledger = fun _ => none`) yields the ordinary
`status: "processing"` response — exactly the response a genuinely
pending task receives — not a distinct unknown-task error. -/
theorem unknown_task_reports_processing_cex :
    Main.get_task_status (fun _ => none) "ghost" =
      { taskId := "ghost", status := "processing" } ∧
    Main.get_task_status
        (fun i => if i = "real" then some Main.CeleryTaskState.pending else none)
        "real" =
      { taskId := "real", status := "processing" } := by
  exact ⟨rfl, rfl⟩

/-- C2 (amended): for every task identifier that was never returned by a
submission, the status endpoint answers with the same
`status: "processing"` body a pending task gets; a bad identifier is NOT
diagnosable as such by the caller. -/
theorem get_task_status_unknown (ledger : Main.Ledger) (tid : String)
    (h : ledger tid = none) :
    Main.get_task_status ledger tid = { taskId := tid, status := "processing" } := by
  simp [Main.get_task_status, Main.asyncResultState, h]

/-- C2 witness: the amended statement at the empty ledger. -/
theorem get_task_status_unknown_witness :
    Main.get_task_status (fun _ => none) "no-such-task" =
      { taskId := "no-such-task", status := "processing" } :=
  get_task_status_unknown (fun _ => none) "no-such-task" rfl

/-- C3: the claim is false.  With the MLflow check passing, the model-info
check passing, but the RAG sub-check reporting `"unhealthy"`, the
aggregate status is still the literal `"healthy"` — an unhealthy
sub-check does not make the aggregate non-healthy. -/
theorem health_aggregate_ignores_subchecks_cex :
    Main.health_check (.ok ()) (.ok ())
        { status := "unhealthy", error := some "RAG service not initialized" } =
      { status := "healthy",
        services := some
          { mlflow := "available", cutler := "available", rag := "unhealthy" } } := by
  rfl

/-- C3 (amended): the aggregate `/health` status is `"healthy"` exactly
when the `try` body raises no exception — i.e. when the MLflow setup
check succeeds — regardless of what the cutler and RAG sub-checks
report; when the MLflow check raises, the aggregate is `"unhealthy"`
with the error attached. -/
theorem health_check_status (modelInfo : Except String Unit)
    (ragHealth : Main.RagHealth) :
    (∀ u, (Main.health_check (.ok u) modelInfo ragHealth).status = "healthy") ∧
    (∀ e, Main.health_check (.error e) modelInfo ragHealth =
      { status := "unhealthy", error := some e }) := by
  exact ⟨fun u => rfl, fun e => rfl⟩

/-- C4: the claim is false.  When the tracking-backend sub-check raises
(`.error "mlflow down"`), the remaining sub-checks do not appear in the
reported result at all: the response carries no `services` breakdown,
only the error — there is no individual failure boundary. -/
theorem health_no_individual_boundary_cex :
    Main.health_check (.error "mlflow down") (.ok ()) { status := "healthy" } =
      { status := "unhealthy", error := some "mlflow down" } ∧
    (Main.health_check (.error "mlflow down") (.ok ())
        { status := "healthy" }).services = none := by
  exact ⟨rfl, rfl⟩

/-- C4 (amended): the three sub-checks share one failure boundary: if the
MLflow setup check raises, the whole handler answers
`status: "unhealthy"` with only the error and no per-service entries;
only when nothing raises are the cutler and RAG sub-check results
reported individually in `services`. -/
theorem health_check_single_boundary (modelInfo : Except String Unit)
    (ragHealth : Main.RagHealth) (e : String) :
    (Main.health_check (.error e) modelInfo ragHealth).services = none ∧
    (Main.health_check (.ok ()) modelInfo ragHealth).services =
      some { mlflow := "available",
             cutler := match modelInfo with
                       | .ok _ => "available"
                       | .error _ => "error",
             rag := ragHealth.status } := by
  exact ⟨rfl, rfl⟩

/-- C5: the claim is false.  In the async worker task, a failure of the
experiment-tracking call `start_run` (MLflow backend down) causes the
primary operation itself to fail: the task re-raises `"mlflow down"`
even though the inference itself would have succeeded. -/
theorem tracking_failure_fails_task_cex :
    (Celery.process_image_async (.error "mlflow down")
        (.ok { image := "img", numInstances := 2 }) 9 4 []).1 =
      .error "mlflow down" ∧
    MLFlowService.start_run (.error "mlflow down") = .error "mlflow down" := by
  exact ⟨rfl, rfl⟩

/-- C5 (amended): the metric-logging calls (`log_model_metrics`,
`log_model_params`, `log_prediction_metrics`, `end_run`) swallow a
failing tracking backend and return normally on every path, but
`setup_mlflow` and `start_run` re-raise it, and in the async worker task
a failing `start_run` therefore fails the primary operation. -/
theorem mlflow_swallow_vs_reraise (e : String) (inf : InferOk)
    (sz t : Nat) (log : List MEvent) :
    MLFlowService.log_model_metrics (.error e) = .ok () ∧
    MLFlowService.log_model_params (.error e) = .ok () ∧
    MLFlowService.log_prediction_metrics (.error e) = .ok () ∧
    MLFlowService.end_run (.error e) = .ok () ∧
    MLFlowService.setup_mlflow (.error e) = .error e ∧
    MLFlowService.start_run (.error e) = .error e ∧
    (Celery.process_image_async (.error e) (.ok inf) sz t log).1 = .error e := by
  exact ⟨rfl, rfl, rfl, rfl, rfl, rfl, rfl⟩

/-- C6: a failure during setup leaves the guard uninitialized and surfaces
the (wrapped) failure, for both failing stages of the setup work; a
subsequent call on the resulting state re-runs setup rather than
short-circuiting, and succeeds when the new setup outcome succeeds. -/
theorem rag_init_failure_retryable (s : RagState) (e : String) (h1 h2 : Nat)
    (hs : s.initialized = false) :
    (RagService.init_service (.mk_rag_fails e) s).1 =
      some ("RAG service initialization failed: " ++ e) ∧
    ((RagService.init_service (.mk_rag_fails e) s).2).initialized = false ∧
    (RagService.init_service (.insert_fails h1 e) s).1 =
      some ("RAG service initialization failed: " ++
              ("Failed to read resume file: " ++ e)) ∧
    ((RagService.init_service (.insert_fails h1 e) s).2).initialized = false ∧
    (RagService.init_service (.ok h2)
        ((RagService.init_service (.mk_rag_fails e) s).2)).1 = none ∧
    ((RagService.init_service (.ok h2)
        ((RagService.init_service (.mk_rag_fails e) s).2)).2).initialized = true ∧
    (RagService.init_service (.ok h2)
        ((RagService.init_service (.insert_fails h1 e) s).2)).1 = none ∧
    ((RagService.init_service (.ok h2)
        ((RagService.init_service (.insert_fails h1 e) s).2)).2).initialized = true := by
  simp [RagService.init_service, hs]

/-- C6 witness: the statement at a fresh `RagState` and concrete setup
outcomes. -/
theorem rag_init_failure_retryable_witness :
    ({} : RagState).initialized = false ∧
    ((RagService.init_service (.ok 7)
        ((RagService.init_service (.mk_rag_fails "disk full") {}).2)).2).initialized
      = true :=
  ⟨rfl, (rag_init_failure_retryable {} "disk full" 3 7 rfl).2.2.2.2.2.1⟩

/-- C7: calling `RagService.query` before initialization completes fails
fast with the distinct not-ready error and leaves the whole service state
— in particular the `total_queries` / `successful_queries` counters — and
the metrics trace unchanged. -/
theorem rag_query_not_ready (q : String) (b : Except String String) (t : Nat)
    (s : RagState) (log : List MEvent) (hs : s.initialized = false) :
    (RagService.query q b t s log).1 =
      .error "RAG service not initialized. Call initialize() first." ∧
    (RagService.query q b t s log).2.1 = s ∧
    (RagService.query q b t s log).2.2 = log := by
  simp [RagService.query, hs]

/-- C7 witness: the statement at a fresh `RagState`. -/
theorem rag_query_not_ready_witness :
    ({} : RagState).initialized = false ∧
    (RagService.query "hi" (.ok "answer") 2 {} []).2.1 = ({} : RagState) :=
  ⟨rfl, (rag_query_not_ready "hi" (.ok "answer") 2 {} [] rfl).2.1⟩

/-- C8: on the synchronous image endpoint, an upload whose byte length
exceeds `max_file_size` (with an allowed content type) answers HTTP 413
with an empty instrumentation trace — no `file_upload` metric, no
prediction metric, no model invocation, no task submission; a disallowed
content type answers HTTP 400, likewise with an empty trace. -/
theorem sync_endpoint_validation (maxFS sz t : Nat) (ct : String)
    (inf : Except String InferOk) :
    (ct ∈ allowed_file_types → sz > maxFS →
      Main.process_image maxFS ct sz inf t =
        (.httpError 413 "File too large", [])) ∧
    (ct ∉ allowed_file_types →
      Main.process_image maxFS ct sz inf t =
        (.httpError 400 "Invalid file type", [])) := by
  constructor
  · intro h1 h2
    simp [Main.process_image, Main.process_image_body, h1, h2]
  · intro h1
    simp [Main.process_image, Main.process_image_body, h1]

/-- C8 witness: oversized upload and disallowed content type at concrete
inputs. -/
theorem sync_endpoint_validation_witness :
    Main.process_image 10 "image/png" 11 (.ok { image := "x", numInstances := 0 }) 1 =
      (.httpError 413 "File too large", []) ∧
    Main.process_image 10 "text/plain" 5 (.ok { image := "x", numInstances := 0 }) 1 =
      (.httpError 400 "Invalid file type", []) :=
  ⟨(sync_endpoint_validation 10 11 1 "image/png" (.ok { image := "x", numInstances := 0 })).1
      (by decide) (by decide),
   (sync_endpoint_validation 10 5 1 "text/plain" (.ok { image := "x", numInstances := 0 })).2
      (by decide)⟩

/-- C9: on the asynchronous image endpoint, a disallowed content type or an
oversized payload answers HTTP 500 — not 400 or 413 — because the blanket
`except Exception` catches the handler's own validation `HTTPException`
and re-wraps it; the 500's detail is `str(e)`, which carries the
validation message. -/
theorem async_endpoint_validation_rewrapped (maxFS sz : Nat) (ct tid : String) :
    (ct ∉ allowed_file_types →
      Main.process_image_async_endpoint maxFS ct sz tid =
        (.httpError 500 "400: Invalid file type", [])) ∧
    (ct ∈ allowed_file_types → sz > maxFS →
      Main.process_image_async_endpoint maxFS ct sz tid =
        (.httpError 500 "413: File too large", [])) := by
  constructor
  · intro h1
    simp only [Main.process_image_async_endpoint, Main.process_image_async_body,
      if_neg h1, Exc.str]
    rfl
  · intro h1 h2
    simp only [Main.process_image_async_endpoint, Main.process_image_async_body,
      if_pos h1, if_pos h2, Exc.str]
    rfl

/-- C9 witness: concrete disallowed-type and oversized requests to the
async endpoint. -/
theorem async_endpoint_validation_rewrapped_witness :
    Main.process_image_async_endpoint 10 "text/plain" 5 "t-1" =
      (.httpError 500 "400: Invalid file type", []) ∧
    Main.process_image_async_endpoint 10 "image/jpeg" 11 "t-2" =
      (.httpError 500 "413: File too large", []) :=
  ⟨(async_endpoint_validation_rewrapped 10 5 "text/plain" "t-1").1 (by decide),
   (async_endpoint_validation_rewrapped 10 11 "image/jpeg" "t-2").2 (by decide) (by decide)⟩

/-- C10: with no `MAX_FILE_SIZE` environment variable, the default string
`"10 * 1024 * 1024"` reaches `int()`, which has no result for that input,
so constructing the application settings fails — the documented 10MB
default is never produced and startup with default configuration errors
out at settings construction. -/
theorem settings_default_max_file_size_fails (env : String → Option String)
    (h : env "MAX_FILE_SIZE" = none) :
    pyInt "10 * 1024 * 1024" = none ∧ mkSettings env = none := by
  have hm : pyInt ((env "MAX_FILE_SIZE").getD "10 * 1024 * 1024") = none := by
    rw [h]; decide
  refine ⟨by decide, ?_⟩
  unfold mkSettings
  rcases hp : pyInt ((env "PORT").getD "8000") with _ | p <;>
    rcases hw : pyInt ((env "WORKERS").getD "4") with _ | w <;>
      simp [hp, hw, hm]

/-- C10 witness: the empty environment. -/
theorem settings_default_max_file_size_fails_witness :
    mkSettings (fun _ => none) = none :=
  (settings_default_max_file_size_fails (fun _ => none) rfl).2
